import Mathlib

/-
Verification development for the folium backend of leafmap
(src/leafmap/foliumap.py).  The Python module is a parameter-translation
shim over the folium widget library: each method validates and reshapes
its arguments and attaches layers/controls to a map widget.  We embed the
argument-handling logic shallowly: Python strings stay `String`, numbers
that only flow through become `Rat`, dictionaries become association
lists, exceptions become an explicit `PyErr` error type, and the external
collaborators (titiler endpoints, filesystem, HTTP, folium rendering) are
oracle parameters.  Every definition is translated from the source unless
its doc comment says it is modelled from the spec (for collaborator code
that is not part of src/).
-/

namespace Leafmap

/-! ### Python string primitives

Python `str.startswith`, `str.endswith` and single-character `str.replace`
modelled on the character list of the string (same observable behaviour).
-/

/-- Python `s.startswith(p)`: `p` is a prefix of `s`. -/
def pyStartsWith (s p : String) : Bool :=
  p.data.isPrefixOf s.data

/-- Python `s.endswith(p)`: `p` is a suffix of `s`. -/
def pyEndsWith (s p : String) : Bool :=
  p.data.isSuffixOf s.data

/-- Python `s.replace(c, r)` for a single-character pattern and replacement. -/
def replaceChar (s : String) (c r : Char) : String :=
  ⟨s.data.map (fun x => if x = c then r else x)⟩

/-- Whether `needle` occurs as a substring of `hay` (character lists). -/
def listContainsSub (needle : List Char) : List Char → Bool
  | [] => needle.isPrefixOf []
  | c :: rest => needle.isPrefixOf (c :: rest) || listContainsSub needle rest

/-- Whether `needle` occurs as a substring of `s`. -/
def strContainsSub (s needle : String) : Bool :=
  listContainsSub needle.data s.data

/-! ### Python exceptions -/

/-- Exception values raised by the shim.  `wrapped e` models the idiom
`except Exception as e: raise Exception(e)` (re-raising as a generic
exception that carries the original failure). -/
inductive PyErr where
  | valueError (msg : String)
  | typeError (msg : String)
  | attributeError (msg : String)
  | keyError (msg : String)
  | fileNotFound (msg : String)
  | notImplemented (msg : String)
  | wrapped (e : PyErr)
deriving Repr, DecidableEq

/-- Validation failures per the error taxonomy: wrong value, type or shape
of an argument. -/
def PyErr.isValidation : PyErr → Bool
  | .valueError _ => true
  | .typeError _ => true
  | .attributeError _ => true
  | _ => false

/-! ### Python dicts as association lists -/

/-- Python dict assignment on an association list: replaces the first
binding of the key, else appends it. -/
def setAssoc {α β : Type} [DecidableEq α] : List (α × β) → α → β → List (α × β)
  | [], k, v => [(k, v)]
  | (k1, v1) :: rest, k, v =>
    if k1 = k then (k, v) :: rest else (k1, v1) :: setAssoc rest k v

/-- Python dict lookup on an association list: the first binding of the
key. -/
def getAssoc {α β : Type} [DecidableEq α] : List (α × β) → α → Option β
  | [], _ => none
  | (k1, v1) :: rest, k => if k1 = k then some v1 else getAssoc rest k

/-! ### Colors and the legend (`Map.add_legend`, lines 869-986) -/

/-- A Python color argument: either a string or an RGB tuple of ints. -/
inductive PyColor where
  | str (s : String)
  | rgb (r g b : Nat)
deriving Repr, DecidableEq

/-- Hex digit character for a value below 16. -/
def hexDigitChar (n : Nat) : Char :=
  if n < 10 then Char.ofNat (48 + n) else Char.ofNat (87 + n)

/-- Two-digit lowercase hex rendering of a byte. -/
def byteHex (n : Nat) : String :=
  ⟨[hexDigitChar (n / 16 % 16), hexDigitChar (n % 16)]⟩

/-- Modelled from the spec: `common.rgb_to_hex` is not under src/.  The spec
fixes a tuple-to-hex mapping with (255, 0, 0) mapping to the hex digits of
`#ff0000`; the callers in src/ prepend the `#` themselves, so this returns
the six hex digits. -/
def rgb_to_hex : Nat × Nat × Nat → String
  | (r, g, b) => byteHex r ++ byteHex g ++ byteHex b

/-- Modelled from the spec: `common.check_color` is not under src/.  The spec
normalization rules: a 6-character string is prefixed with `#`; a
7-character string starting with `#` is unchanged; an RGB tuple maps to
`#` plus the tuple-to-hex digits.  Other strings pass through (the spec
states no rule for them). -/
def check_color : PyColor → String
  | .rgb r g b => "#" ++ rgb_to_hex (r, g, b)
  | .str s => if s.length = 6 then "#" ++ s else s

/-- Python `all(p(x) for x in xs)` where evaluating `p` may raise:
short-circuits at the first `false`, propagates the first exception. -/
def allE (p : PyColor → Except PyErr Bool) : List PyColor → Except PyErr Bool
  | [] => .ok true
  | x :: xs =>
    match p x with
    | .error e => .error e
    | .ok false => .ok false
    | .ok true => allE p xs

/-- Python `isinstance(item, tuple)`. -/
def isTuple : PyColor → Bool
  | .rgb _ _ _ => true
  | .str _ => false

/-- Python `isinstance(item, str)`. -/
def isStr : PyColor → Bool
  | .rgb _ _ _ => false
  | .str _ => true

/-- Python `item.startswith("#") and len(item) == 7`; raises
AttributeError when `item` is a tuple (tuples have no `startswith`). -/
def startsHash7 : PyColor → Except PyErr Bool
  | .rgb _ _ _ => .error (.attributeError "tuple object has no attribute startswith")
  | .str s => .ok (pyStartsWith s "#" && s.length = 7)

/-- Python `len(item) == 6`; `len` of a 3-tuple is 3, never 6. -/
def len6 : PyColor → Except PyErr Bool
  | .rgb _ _ _ => .ok false
  | .str s => .ok (s.length = 6)

/-- Normalization of an explicitly supplied `colors` list
(foliumap.py lines 908-921): all tuples are mapped to `#` plus hex;
otherwise all 7-character `#`-strings pass unchanged; otherwise all
6-character items pass unchanged; otherwise ValueError. -/
def normalizeColors (colors : List PyColor) : Except PyErr (List PyColor) :=
  if colors.all isTuple then
    .ok (colors.map fun c =>
      match c with
      | .rgb r g b => .str ("#" ++ rgb_to_hex (r, g, b))
      | .str s => .str s)
  else
    match allE startsHash7 colors with
    | .error e => .error e
    | .ok true => .ok colors
    | .ok false =>
      match allE len6 colors with
      | .error e => .error e
      | .ok true => .ok colors
      | .ok false => .error (.valueError "The legend colors must be a list of tuples.")

/-- Color handling for the values of a legend dict (foliumap.py lines
955-961, also reached by a builtin legend name): all tuples map to `#`
plus hex; otherwise all strings get `#` prepended unconditionally;
mixed lists pass through untouched. -/
def legendDictColors (values : List PyColor) : List PyColor :=
  if values.all isTuple then
    values.map fun c =>
      match c with
      | .rgb r g b => .str ("#" ++ rgb_to_hex (r, g, b))
      | .str s => .str s
  else if values.all isStr then
    values.map fun c =>
      match c with
      | .str s => .str ("#" ++ s)
      | .rgb r g b => .rgb r g b
  else
    values

/-- Default labels (foliumap.py line 906). -/
def defaultLegendLabels : List String :=
  ["One", "Two", "Three", "Four", "etc"]

/-- Default colors (foliumap.py line 923). -/
def defaultLegendColors : List PyColor :=
  [.str "#8DD3C7", .str "#FFFFB3", .str "#BEBADA", .str "#FB8072", .str "#80B1D3"]

/-- Arguments of `add_legend` that shape the resolved legend entries.
`legend_dict` and the builtin table are association lists standing for
Python dicts (keys in insertion order). -/
structure LegendArgs where
  labels : Option (List String)
  colors : Option (List PyColor)
  legend_dict : Option (List (String × PyColor))
  builtin_legend : Option String
deriving Repr, DecidableEq

/-- Labels and colors taken from a legend dict (foliumap.py lines 952-961). -/
def processLegendDict (d : List (String × PyColor)) : List String × List PyColor :=
  (d.map Prod.fst, legendDictColors (d.map Prod.snd))

/-- Resolution of the final (labels, colors) pair of `add_legend`
(foliumap.py lines 899-961), before textual substitution into the legend
template.  `templateExists` models the existence check of
data/template/legend.txt (a packaged file outside src/); `builtins` models
the `builtin_legends` table (legends.py, outside src/) as a parameter.
Faithful order: labels default, colors normalization, length check, then
the builtin block (which overwrites `legend_dict`), then the dict block
(dead-overwriting the builtin block's own label/color computation at
lines 938-946, since the dict block recomputes both from the raw dict). -/
def resolveLegend (templateExists : Bool)
    (builtins : List (String × List (String × PyColor)))
    (a : LegendArgs) : Except PyErr (List String × List PyColor) :=
  if templateExists = false then
    .error (.fileNotFound "The legend template does not exist.")
  else
    let labels := a.labels.getD defaultLegendLabels
    match (match a.colors with
           | some cs => normalizeColors cs
           | none => .ok defaultLegendColors) with
    | .error e => .error e
    | .ok colors =>
      if labels.length ≠ colors.length then
        .error (.valueError "The legend keys and values must be the same length.")
      else
        match a.builtin_legend with
        | some b =>
          match getAssoc builtins b with
          | none => .error (.valueError "The builtin legend must be one of the following: ...")
          | some d => .ok (processLegendDict d)
        | none =>
          match a.legend_dict with
          | some d => .ok (processLegendDict d)
          | none => .ok (labels, colors)

/-- One rendered legend entry (foliumap.py line 977): the color substituted
into the template line is `check_color color`. -/
def legendItem (opacity : String) (label : String) (color : PyColor) : String :=
  "    <li><span style='background:" ++ check_color color ++ ";opacity:" ++
    opacity ++ ";'></span>" ++ label ++ "</li>\n"

/-- The rendered legend entries: one `<li>` line per resolved label/color
pair (foliumap.py lines 975-978). -/
def renderLegendEntries (opacity : String) (labels : List String)
    (colors : List PyColor) : List String :=
  (labels.zip colors).map fun p => legendItem opacity p.1 p.2

/-! ### The map widget state

The folium `Map` is modelled by the observable state the claims are about:
the child elements attached to it (folium keys each child as a class-name
prefix followed by an id, the keys `add_layer_control` scans) and the
trace of `fit_bounds` calls (folium's only view-fitting primitive; the
shim's `set_center` and zoom helpers all go through it). -/

/-- One `fit_bounds` invocation on the widget: the two corner pairs and the
optional `max_zoom` argument. -/
structure FitCall where
  corner1 : List Rat
  corner2 : List Rat
  maxZoom : Option Int
deriving Repr, DecidableEq

/-- Payload of a GeoJSON layer: either opaque parsed JSON (a document
fetched or loaded by `add_geojson`) or the footprint feature collection
built by the mosaic helpers. -/
inductive GeoData where
  | json (s : String)
  | featureCollection (coords : List (List Rat))
deriving Repr, DecidableEq

/-- A child element attached to the map. -/
inductive ChildData where
  | tileLayer (url name attribution : String) (opacity : Rat) (shown : Bool)
  | geoJson (name : String) (data : GeoData)
  | layerControl
  | control (tag : String)
deriving Repr, DecidableEq

/-- The folium child-key prefix: snake-cased class name of the element. -/
def childKey : ChildData → String
  | .tileLayer _ _ _ _ _ => "tile_layer"
  | .geoJson _ _ => "geo_json"
  | .layerControl => "layer_control"
  | .control tag => tag

/-- The map state: the stored `layersControl` option, a fresh-id counter for
child keys, the keyed children in attachment order, and the trace of
fit-bounds calls. -/
structure MapState where
  layersControl : Bool
  nextId : Nat
  children : List (String × ChildData)
  fitBounds : List FitCall
deriving Repr, DecidableEq

/-- A freshly constructed map with no layer control attached (the
constructor adds fullscreen/draw/measure/popup controls and a base tile
layer, none of which is keyed `layer_control...`). -/
def initMap : MapState :=
  { layersControl := true, nextId := 0, children := [], fitBounds := [] }

/-- Attaching a child element (`element.add_to(self)`): the child is keyed
by its class prefix and a fresh id. -/
def addChild (m : MapState) (c : ChildData) : MapState :=
  { m with
    nextId := m.nextId + 1
    children := m.children ++ [(childKey c ++ "_" ++ toString m.nextId, c)] }

/-- `self.fit_bounds([c1, c2], max_zoom=z)`: records the call. -/
def fit_bounds (m : MapState) (c1 c2 : List Rat) (z : Option Int) : MapState :=
  { m with fitBounds := m.fitBounds ++ [⟨c1, c2, z⟩] }

/-- `Map.set_center` (lines 180-188): fits a degenerate box at the point. -/
def set_center (m : MapState) (lon lat : Rat) (zoom : Int) : MapState :=
  fit_bounds m [lat, lon] [lat, lon] (some zoom)

/-- `Map.zoom_to_bounds` (lines 190-197): bounds is `[minx, miny, maxx,
maxy]` and folium expects `[[south, west], [north, east]]`.  Python
indexes `bounds[1]` etc. (IndexError on shorter lists; the claims supply
4-element lists). -/
def zoom_to_bounds (m : MapState) (bounds : List Rat) : MapState :=
  fit_bounds m [bounds.getD 1 0, bounds.getD 0 0] [bounds.getD 3 0, bounds.getD 2 0] none

/-- `Map.add_tile_layer` (lines 279-317): attaches an XYZ tile layer. -/
def add_tile_layer (m : MapState) (url name attribution : String)
    (opacity : Rat) (shown : Bool) : MapState :=
  addChild m (.tileLayer url name attribution opacity shown)

/-- `Map.add_layer_control` (lines 165-173): scans the child keys for one
starting with `layer_control`; attaches a `folium.LayerControl` only when
none is found. -/
def add_layer_control (m : MapState) : MapState :=
  if m.children.any (fun c => pyStartsWith c.1 "layer_control") then m
  else addChild m .layerControl

/-- The display hook `_repr_mimebundle_` (lines 175-178): adds the layer
control when the stored `layersControl` option is set. -/
def repr_hook (m : MapState) : MapState :=
  if m.layersControl then add_layer_control m else m

/-- Number of children keyed as a layer control. -/
def layerControlCount (m : MapState) : Nat :=
  m.children.countP (fun c => pyStartsWith c.1 "layer_control")

/-- The three entry points that may add a layer control: a direct call, the
display hook, and the control step of `to_html` (line 1379-1380, same
guard as the hook). -/
inductive LCOp where
  | direct
  | hook
  | exportStep
deriving Repr, DecidableEq

/-- Applying one layer-control entry point. -/
def applyLCOp (m : MapState) : LCOp → MapState
  | .direct => add_layer_control m
  | .hook => repr_hook m
  | .exportStep => if m.layersControl then add_layer_control m else m

/-- Applying a sequence of layer-control entry points. -/
def applyLCOps (m : MapState) : List LCOp → MapState
  | [] => m
  | op :: ops => applyLCOps (applyLCOp m op) ops

/-! ### The vector style pipeline of `add_geojson` (lines 1106-1151) -/

/-- A Python style-dict value: a string or a number. -/
inductive SVal where
  | s (v : String)
  | n (v : Rat)
deriving Repr, DecidableEq

/-- A style dictionary, as an association list in insertion order. -/
abbrev StyleDict := List (String × SVal)

/-- The default style dict (lines 1113-1123, commented entries omitted as
in the source). -/
def defaultStyleDict : StyleDict :=
  [("color", .s "#000000"), ("weight", .n 1), ("opacity", .n 1),
   ("fillOpacity", .n (1 / 10))]

/-- The function object ending up as folium's `style_function` /
`highlight_function`: a constant dict closure, an opaque user callback
(identified by a tag), or the `random_color` closure over the current
style dict and the `fill_colors` palette. -/
inductive StyleSource where
  | fromDict (d : StyleDict)
  | callback (id : Nat)
  | randomFill (base : StyleDict) (palette : List String)
deriving Repr, DecidableEq

/-- The style keyword arguments of `add_geojson`.  An outer `none` means
the key is absent from `kwargs`; for `style_callback` the inner option
mirrors an explicit `None` value (the code tests both). -/
structure GeoStyleArgs where
  style : Option StyleDict
  style_callback : Option (Option Nat)
  hover_style : Option StyleDict
  fill_colors : Option (List String)
deriving Repr, DecidableEq

/-- The keyword-argument reshaping of `add_geojson` (lines 1106-1151),
faithful to the source order: `style` (default dict when absent, skipped
as a style function when empty), then `style_callback` (overrides the
style function when present and not `None`), then `hover_style` (default
computed from the style dict's `weight`, raising KeyError when that key is
missing or TypeError when it is a string), then `fill_colors` (overrides
the style function with the `random_color` closure).  Returns the
resulting `(style_function, highlight_function)` pair. -/
def buildStyleFunctions (a : GeoStyleArgs) :
    Except PyErr (Option StyleSource × Option StyleSource) :=
  let styleDict := match a.style with
    | some d => d
    | none => defaultStyleDict
  let styleFn0 : Option StyleSource := match a.style with
    | some d => if 0 < d.length then some (.fromDict d) else none
    | none => some (.fromDict defaultStyleDict)
  let styleFn1 : Option StyleSource := match a.style_callback with
    | some (some c) => some (.callback c)
    | _ => styleFn0
  let highlightE : Except PyErr (Option StyleSource) := match a.hover_style with
    | some d => .ok (if 0 < d.length then some (.fromDict d) else none)
    | none =>
      match getAssoc styleDict "weight" with
      | some (SVal.n w) =>
        .ok (some (.fromDict [("weight", .n (w + 1)), ("fillOpacity", .n (1 / 2))]))
      | some (SVal.s _) => .error (.typeError "can only concatenate str to str")
      | none => .error (.keyError "weight")
  match highlightE with
  | .error e => .error e
  | .ok highlight =>
    let styleFn2 : Option StyleSource := match a.fill_colors with
      | some cols => some (.randomFill styleDict cols)
      | none => styleFn1
    .ok (styleFn2, highlight)

/-- Evaluating a style function on a feature: `choose` models
`random.choice` (the per-feature random pick from the palette) and
`callbackEval` the opaque user callback.  The `random_color` closure sets
`fillColor` on the captured style dict and returns it (lines 1143-1145). -/
def applyStyleSource (choose : List String → String)
    (callbackEval : Nat → StyleDict) : StyleSource → StyleDict
  | .fromDict d => d
  | .callback c => callbackEval c
  | .randomFill base palette => setAssoc base "fillColor" (.s (choose palette))

/-! ### GeoJSON input handling of `add_geojson` (lines 1080-1104) -/

/-- The `in_geojson` argument: a string (path or URL), an in-memory mapping
(payload opaque), or any other Python value. -/
inductive GeoInput where
  | str (s : String)
  | dict (d : String)
  | other
deriving Repr, DecidableEq

/-- The outside world as `add_geojson` sees it: the local filesystem
(parsed JSON of an existing readable file, `none` when the path does not
exist) and HTTP (`requests.get(url).json()`). -/
structure GeoEnv where
  fileData : String → Option String
  httpGet : String → String

/-- Obtaining the GeoJSON data (lines 1084-1104).  The whole block sits in
`try ... except Exception as e: raise Exception(e)`, so the
FileNotFoundError and TypeError raised inside come out wrapped in a
generic exception carrying them.  Returns the data and the number of HTTP
fetches issued. -/
def loadGeojsonInput (env : GeoEnv) : GeoInput → Except PyErr (String × Nat)
  | .str s =>
    if pyStartsWith s "http" then .ok (env.httpGet s, 1)
    else
      match env.fileData s with
      | none => .error (.wrapped (.fileNotFound "The provided GeoJSON file could not be found."))
      | some d => .ok (d, 0)
  | .dict d => .ok (d, 0)
  | .other => .error (.wrapped (.typeError "The input geojson must be a type of str or dict."))

/-- `Map.add_geojson` (lines 1070-1154): obtain the data, reshape the style
keyword arguments, attach one named `folium.GeoJson` layer.  Returns the
new map state and the number of HTTP fetches. -/
def add_geojson (env : GeoEnv) (m : MapState) (inp : GeoInput)
    (layer_name : String) (a : GeoStyleArgs) : Except PyErr (MapState × Nat) :=
  match loadGeojsonInput env inp with
  | .error e => .error e
  | .ok (data, fetches) =>
    match buildStyleFunctions a with
    | .error e => .error e
    | .ok _ => .ok (addChild m (.geoJson layer_name (.json data)), fetches)

/-! ### `add_gdf` and `add_gdf_from_postgis` (lines 1156-1207)

The GeoDataFrame itself is external (geopandas); what reaches the map is
the GeoJSON conversion and the four reprojected bound extrema
`west = min(minx)`, `south = min(miny)`, `east = max(maxx)`,
`north = max(maxy)`, which we take as parameters. -/

/-- `Map.add_gdf`: attaches the converted layer, then (when
`zoom_to_layer`) calls `fit_bounds([[south, east], [north, west]])`
(line 1178). -/
def add_gdf (m : MapState) (geojsonData : String) (layer_name : String)
    (zoom_to_layer : Bool) (west south east north : Rat) : MapState :=
  let m1 := addChild m (.geoJson layer_name (.json geojsonData))
  if zoom_to_layer then fit_bounds m1 [south, east] [north, west] none else m1

/-- `Map.add_gdf_from_postgis` (lines 1180-1207): same attachment and the
same `fit_bounds([[south, east], [north, west]])` call (line 1207). -/
def add_gdf_from_postgis (m : MapState) (geojsonData : String)
    (layer_name : String) (zoom_to_layer : Bool)
    (west south east north : Rat) : MapState :=
  let m1 := addChild m (.geoJson layer_name (.json geojsonData))
  if zoom_to_layer then fit_bounds m1 [south, east] [north, west] none else m1

/-! ### `add_cog_mosaic` (lines 686-751) -/

/-- Modelled from the spec: `common.coords_to_geojson` is not under src/.
The spec describes the footprint overlay as one bounding polygon per input
COG; the feature collection is represented by the list of the surviving
bounds. -/
def coords_to_geojson (coords : List (List Rat)) : List (List Rat) :=
  coords

/-- The titiler collaborators of the mosaic helper, as oracles:
`cog_mosaic` (the registered tile URL), `cog_bounds` (`none` when the
bounds lookup of a COG fails), `cog_center` ((lon, lat) of one COG) and
`get_center` ((lon, lat) centroid of a footprint collection); all live in
common.py, outside src/. -/
structure CogBackend where
  cogMosaicTile : List String → String → String
  cogBounds : String → Option (List Rat)
  cogCenter : String → Rat × Rat
  getCenter : List (List Rat) → Rat × Rat

/-- `Map.add_cog_mosaic` (lines 686-751): register the mosaic and attach
its tile layer; when `show_footprints`, collect each COG's bounds
(skipping every `None`), attach the footprint GeoJson layer and recenter
on `get_center` of that collection; otherwise recenter on the first COG's
own center.  Both branches use zoom 6.  (`verbose` only prints.) -/
def add_cog_mosaic (o : CogBackend) (m : MapState) (links : List String)
    (name attribution : String) (opacity : Rat) (shown : Bool)
    (show_footprints : Bool) : MapState :=
  let layername := replaceChar name ' ' '_'
  let tile := o.cogMosaicTile links layername
  let m1 := add_tile_layer m tile name attribution opacity shown
  if show_footprints then
    let coords := links.filterMap o.cogBounds
    let fc := coords_to_geojson coords
    let m2 := addChild m1 (.geoJson (name ++ "_footprints") (.featureCollection fc))
    let c := o.getCenter fc
    set_center m2 c.1 c.2 6
  else
    let c := o.cogCenter (links.headD "")
    set_center m1 c.1 c.2 6

/-! ### `to_html` (lines 1366-1398) -/

/-- The filesystem as `to_html` touches it: file contents by path, and the
set of existing directories. -/
structure FileSys where
  files : List (String × String)
  dirs : List String
deriving Repr, DecidableEq

/-- Writing a file (overwrites). -/
def writeFile (fs : FileSys) (p c : String) : FileSys :=
  { fs with files := setAssoc fs.files p c }

/-- Removing a file (`os.remove`). -/
def removeFile (fs : FileSys) (p : String) : FileSys :=
  { fs with files := fs.files.filter (fun q => q.1 ≠ p) }

/-- Reading a file's whole text. -/
def readWhole (fs : FileSys) (p : String) : String :=
  (getAssoc fs.files p).getD ""

/-- `Map.to_html`: ensure the layer control (when the stored option is
set), then either validate the `.html` extension, create the output
directory and save; or save under a random temporary name, read the text
back, delete the temporary file and return the text.  `render` models
folium's serialization of the map, `dirOf` models `os.path.dirname`, and
`tmp` the random temporary basename. -/
def to_html (render : MapState → String) (dirOf : String → String)
    (m : MapState) (fs : FileSys) (outfile : Option String) (tmp : String) :
    Except PyErr (Option String × MapState × FileSys) :=
  let m1 := if m.layersControl then add_layer_control m else m
  match outfile with
  | some p =>
    if pyEndsWith p ".html" = false then
      .error (.valueError "The output file extension must be html.")
    else
      let fs1 := if (dirOf p) ∈ fs.dirs then fs
                 else { fs with dirs := fs.dirs ++ [dirOf p] }
      .ok (none, m1, writeFile fs1 p (render m1))
  | none =>
    let tmpPath := tmp ++ ".html"
    let fs1 := writeFile fs tmpPath (render m1)
    let content := readWhole fs1 tmpPath
    let fs2 := removeFile fs1 tmpPath
    .ok (some content, m1, fs2)

/-! ### The unsupported-operation stubs (lines 1445-1610 and 1650-1676)

Each raises `NotImplementedError` with the same message before touching
any state; the model returns the unchanged map paired with the raised
error (`none` never occurs). -/

/-- The message of every stub. -/
def stubMsg : String :=
  "The folium plotting backend does not support this function. Use the ipyleaflet plotting backend instead."

/-- The error every stub raises. -/
def stubErr : PyErr := .notImplemented stubMsg

namespace Map

/-- Stub `Map.add_colormap` (line 1445). -/
def add_colormap (m : MapState) (cmap : String) (vmin vmax : Rat) :
    MapState × Option PyErr := (m, some stubErr)

/-- Stub `Map.add_marker_cluster` (line 1468). -/
def add_marker_cluster (m : MapState) (event : String) (add_marker : Bool) :
    MapState × Option PyErr := (m, some stubErr)

/-- Stub `Map.add_minimap` (line 1474). -/
def add_minimap (m : MapState) (zoom : Nat) (position : String) :
    MapState × Option PyErr := (m, some stubErr)

/-- Stub `Map.add_point_layer` (line 1480). -/
def add_point_layer (m : MapState) (filename : String) (popup : Option String)
    (layer_name : String) : MapState × Option PyErr := (m, some stubErr)

/-- Stub `Map.add_raster` (line 1488). -/
def add_raster (m : MapState) (image : String) (bands : Option (List Nat))
    (layer_name : Option String) : MapState × Option PyErr := (m, some stubErr)

/-- Stub `Map.add_time_slider` (line 1502). -/
def add_time_slider (m : MapState) (labels : Option (List String))
    (time_interval : Nat) (position : String) : MapState × Option PyErr :=
  (m, some stubErr)

/-- Stub `Map.add_vector_tile_layer` (line 1515). -/
def add_vector_tile_layer (m : MapState) (url attribution : String) :
    MapState × Option PyErr := (m, some stubErr)

/-- Stub `Map.add_xy_data` (line 1527). -/
def add_xy_data (m : MapState) (in_csv x y : String) (label : Option String)
    (layer_name : String) : MapState × Option PyErr := (m, some stubErr)

/-- Stub `Map.basemap_demo` (line 1540). -/
def basemap_demo (m : MapState) : MapState × Option PyErr := (m, some stubErr)

/-- Stub `Map.find_layer` (line 1546). -/
def find_layer (m : MapState) (name : String) : MapState × Option PyErr :=
  (m, some stubErr)

/-- Stub `Map.find_layer_index` (line 1552). -/
def find_layer_index (m : MapState) (name : String) : MapState × Option PyErr :=
  (m, some stubErr)

/-- Stub `Map.get_layer_names` (line 1558). -/
def get_layer_names (m : MapState) : MapState × Option PyErr := (m, some stubErr)

/-- Stub `Map.get_scale` (line 1564). -/
def get_scale (m : MapState) : MapState × Option PyErr := (m, some stubErr)

/-- Stub `Map.image_overlay` (line 1570). -/
def image_overlay (m : MapState) (url : String) (bounds : List (Rat × Rat))
    (name : String) : MapState × Option PyErr := (m, some stubErr)

/-- Stub `Map.layer_opacity` (line 1582). -/
def layer_opacity (m : MapState) (name : String) (value : Rat) :
    MapState × Option PyErr := (m, some stubErr)

/-- Stub `Map.split_map` (line 1588). -/
def split_map (m : MapState) (left_layer right_layer : String) :
    MapState × Option PyErr := (m, some stubErr)

/-- Stub `Map.to_image` (line 1594). -/
def to_image (m : MapState) (outfile : Option String) (monitor : Nat) :
    MapState × Option PyErr := (m, some stubErr)

/-- Stub `Map.toolbar_reset` (line 1600). -/
def toolbar_reset (m : MapState) : MapState × Option PyErr := (m, some stubErr)

/-- Stub `Map.video_overlay` (line 1606). -/
def video_overlay (m : MapState) (url : String) (bounds : List (Rat × Rat))
    (name : String) : MapState × Option PyErr := (m, some stubErr)

end Map

/-- Stub module-level `linked_maps` (line 1650). -/
def linked_maps (rows cols : Nat) (height : String)
    (layers labels : List String) (label_position : String) :
    Except PyErr Unit := .error stubErr

/-- Stub module-level `split_map` (line 1665). -/
def split_map (left_layer right_layer : String)
    (left_label right_label : Option String) (label_position : String) :
    Except PyErr Unit := .error stubErr

/-! ### Concrete instances used by counterexamples and witnesses -/

/-- A backend whose every bounds lookup fails, with a footprint-collection
centroid that differs from the first COG's own center. -/
def failingBackend : CogBackend :=
  { cogMosaicTile := fun _ _ => "https://api.cogeo.xyz/tile"
    cogBounds := fun _ => none
    cogCenter := fun _ => (5, 5)
    getCenter := fun _ => (0, 0) }

/-- An environment with no local files and a fixed HTTP body. -/
def emptyEnv : GeoEnv :=
  { fileData := fun _ => none
    httpGet := fun _ => "{}" }

/-! ## Helper lemmas -/

/-- A key built from the layer-control class prefix starts with it. -/
theorem lcKeyIsPrefixed (s : String) :
    pyStartsWith ("layer_control_" ++ s) "layer_control" = true := by
  unfold pyStartsWith
  apply List.isPrefixOf_iff_prefix.mpr
  rw [String.data_append]
  have h : ("layer_control_" : String).data
      = ("layer_control" : String).data ++ ("_" : String).data := rfl
  rw [h, List.append_assoc]
  exact List.prefix_append _ _

/-- When a layer control is already attached, `add_layer_control` is the
identity. -/
theorem add_layer_control_stable (m : MapState) (h : 0 < layerControlCount m) :
    add_layer_control m = m := by
  unfold add_layer_control
  have hany : m.children.any (fun c => pyStartsWith c.1 "layer_control") = true := by
    rw [List.any_eq_true]
    obtain ⟨x, hx, hpx⟩ := List.countP_pos_iff.mp h
    exact ⟨x, hx, hpx⟩
  rw [hany]
  rfl

/-- When no layer control is attached, `add_layer_control` attaches exactly
one. -/
theorem add_layer_control_adds (m : MapState) (h : layerControlCount m = 0) :
    layerControlCount (add_layer_control m) = 1 := by
  unfold add_layer_control
  have hany : m.children.any (fun c => pyStartsWith c.1 "layer_control") = false := by
    rw [List.any_eq_false]
    intro x hx
    have := List.countP_eq_zero.mp h x hx
    simpa using this
  rw [hany]
  show layerControlCount (addChild m .layerControl) = 1
  unfold layerControlCount addChild
  rw [List.countP_append]
  show layerControlCount m + _ = 1
  rw [h]
  simp [childKey, lcKeyIsPrefixed]

/-- Once a layer control is attached, no entry point changes the map. -/
theorem applyLCOps_stable (ops : List LCOp) (m : MapState)
    (h : 0 < layerControlCount m) : applyLCOps m ops = m := by
  induction ops with
  | nil => rfl
  | cons op ops ih =>
    have hop : applyLCOp m op = m := by
      cases op with
      | direct => exact add_layer_control_stable m h
      | hook =>
        show repr_hook m = m
        unfold repr_hook
        split
        · exact add_layer_control_stable m h
        · rfl
      | exportStep =>
        show (if m.layersControl then add_layer_control m else m) = m
        split
        · exact add_layer_control_stable m h
        · rfl
    show applyLCOps (applyLCOp m op) ops = m
    rw [hop, ih]

/-- Dict lookup after assignment of the same key. -/
theorem getAssoc_setAssoc {α β : Type} [DecidableEq α] (l : List (α × β))
    (k : α) (v : β) : getAssoc (setAssoc l k v) k = some v := by
  induction l with
  | nil => simp [setAssoc, getAssoc]
  | cons p rest ih =>
    obtain ⟨k1, v1⟩ := p
    unfold setAssoc
    by_cases h : k1 = k
    · simp [h, getAssoc]
    · simp [h, getAssoc, ih]

/-- Dict lookup of another key is unaffected by an assignment. -/
theorem getAssoc_setAssoc_ne {α β : Type} [DecidableEq α] (l : List (α × β))
    (k q : α) (v : β) (h : q ≠ k) :
    getAssoc (setAssoc l k v) q = getAssoc l q := by
  induction l with
  | nil => simp [setAssoc, getAssoc, Ne.symm h]
  | cons p rest ih =>
    obtain ⟨k1, v1⟩ := p
    unfold setAssoc
    by_cases hk : k1 = k
    · subst hk
      simp [getAssoc, Ne.symm h]
    · simp only [if_neg hk]
      unfold getAssoc
      by_cases hq : k1 = q
      · simp [hq]
      · simp [hq, ih]

/-- After filtering a key out, looking it up yields nothing. -/
theorem getAssoc_filter_out {α β : Type} [DecidableEq α] (l : List (α × β))
    (p : α) : getAssoc (l.filter (fun q => q.1 ≠ p)) p = none := by
  induction l with
  | nil => rfl
  | cons x rest ih =>
    obtain ⟨k1, v1⟩ := x
    by_cases h : k1 = p
    · simpa [List.filter, h] using ih
    · simpa [List.filter, h, getAssoc] using ih

/-- Filtering a key out leaves lookups of other keys unchanged. -/
theorem getAssoc_filter_ne {α β : Type} [DecidableEq α] (l : List (α × β))
    (p q : α) (h : q ≠ p) :
    getAssoc (l.filter (fun r => r.1 ≠ p)) q = getAssoc l q := by
  induction l with
  | nil => rfl
  | cons x rest ih =>
    obtain ⟨k1, v1⟩ := x
    by_cases hk : k1 = p
    · subst hk
      simpa [List.filter, getAssoc, Ne.symm h] using ih
    · have ih2 : getAssoc (List.filter (fun r => !decide (r.1 = p)) rest) q
          = getAssoc rest q := by simpa [decide_not] using ih
      simp [List.filter_cons, hk, getAssoc, ih2]

/-- Python `all` over an exception-free all-true list yields `True`. -/
theorem allE_ok_true (p : PyColor → Except PyErr Bool) (cs : List PyColor)
    (h : ∀ x ∈ cs, p x = .ok true) : allE p cs = .ok true := by
  induction cs with
  | nil => rfl
  | cons c rest ih =>
    unfold allE
    rw [h c (by simp)]
    exact ih (fun x hx => h x (by simp [hx]))

/-- An exception escaping Python `all` comes from one of the items. -/
theorem allE_error (p : PyColor → Except PyErr Bool) (cs : List PyColor)
    (e : PyErr) (h : allE p cs = .error e) : ∃ x ∈ cs, p x = .error e := by
  induction cs with
  | nil => exact absurd h (by simp [allE])
  | cons c rest ih =>
    unfold allE at h
    revert h
    match hp : p c with
    | .error e1 =>
      intro h
      injection h with h1
      exact ⟨c, by simp, by rw [hp, h1]⟩
    | .ok false => intro h ; exact absurd h (by simp)
    | .ok true =>
      intro h
      obtain ⟨x, hx, hpx⟩ := ih h
      exact ⟨x, by simp [hx], hpx⟩

/-- The only exception of the 7-character check is a validation failure. -/
theorem startsHash7_error (c : PyColor) (e : PyErr) (h : startsHash7 c = .error e) :
    e.isValidation = true := by
  cases c with
  | rgb r g b =>
    unfold startsHash7 at h
    injection h with h1
    rw [← h1]
    rfl
  | str s => exact absurd h (by simp [startsHash7])

/-- The length-6 check raises nothing. -/
theorem len6_no_error (c : PyColor) (e : PyErr) : len6 c ≠ .error e := by
  cases c <;> simp [len6]

/-- Color normalization preserves the list length. -/
theorem normalizeColors_length (cs cs2 : List PyColor)
    (h : normalizeColors cs = .ok cs2) : cs2.length = cs.length := by
  unfold normalizeColors at h
  split at h
  · injection h with h1
    rw [← h1, List.length_map]
  · split at h
    · exact absurd h (by simp)
    · injection h with h1
      rw [← h1]
    · split at h
      · exact absurd h (by simp)
      · injection h with h1
        rw [← h1]
      · exact absurd h (by simp)

/-- Every exception of color normalization is a validation failure. -/
theorem normalizeColors_error_validation (cs : List PyColor) (e : PyErr)
    (h : normalizeColors cs = .error e) : e.isValidation = true := by
  unfold normalizeColors at h
  split at h
  · exact absurd h (by simp)
  · split at h
    case _ he =>
      injection h with h1
      obtain ⟨x, _, hx⟩ := allE_error _ _ _ he
      rw [← h1]
      exact startsHash7_error x _ hx
    · exact absurd h (by simp)
    · split at h
      case _ he =>
        injection h with h1
        obtain ⟨x, _, hx⟩ := allE_error _ _ _ he
        exact absurd hx (len6_no_error x _)
      · exact absurd h (by simp)
      · injection h with h1
        rw [← h1]
        rfl

/-- The legend-dict color handling preserves the list length. -/
theorem legendDictColors_length (vs : List PyColor) :
    (legendDictColors vs).length = vs.length := by
  unfold legendDictColors
  split
  · rw [List.length_map]
  · split
    · rw [List.length_map]
    · rfl

/-- A successfully resolved legend has as many labels as colors. -/
theorem resolveLegend_ok_len (te : Bool)
    (builtins : List (String × List (String × PyColor))) (a : LegendArgs)
    (L : List String) (C : List PyColor)
    (h : resolveLegend te builtins a = .ok (L, C)) : L.length = C.length := by
  obtain ⟨lb, cl, ld, bi⟩ := a
  cases te
  · simp [resolveLegend] at h
  · simp only [resolveLegend, Bool.true_eq_false, if_false] at h
    revert h
    match hnc : (match cl with
                 | some cs => normalizeColors cs
                 | none => Except.ok defaultLegendColors) with
    | .error e => intro h ; simp at h
    | .ok colors =>
      intro h
      dsimp only at h
      by_cases hlen : (lb.getD defaultLegendLabels).length ≠ colors.length
      · rw [if_pos hlen] at h
        simp at h
      · rw [if_neg hlen] at h
        cases bi with
        | some b =>
          dsimp only at h
          rcases hd : getAssoc builtins b with _ | d
          · rw [hd] at h
            simp at h
          · rw [hd] at h
            dsimp only at h
            injection h with h1
            have hL := congrArg Prod.fst h1
            have hC := congrArg Prod.snd h1
            simp [processLegendDict] at hL hC
            rw [← hL, ← hC, List.length_map, legendDictColors_length, List.length_map]
        | none =>
          dsimp only at h
          cases ld with
          | some d =>
            dsimp only at h
            injection h with h1
            have hL := congrArg Prod.fst h1
            have hC := congrArg Prod.snd h1
            simp [processLegendDict] at hL hC
            rw [← hL, ← hC, List.length_map, legendDictColors_length, List.length_map]
          | none =>
            dsimp only at h
            injection h with h1
            have hL := congrArg Prod.fst h1
            have hC := congrArg Prod.snd h1
            simp at hL hC
            rw [← hL, ← hC]
            exact Decidable.not_not.mp hlen

/-! ## Claim theorems -/

/-- C1 (counterexample).  The claim says that when every bounds lookup
fails, `add_cog_mosaic` with `show_footprints=True` recenters on the first
COG's own center.  On a backend whose every `cog_bounds` fails and whose
footprint centroid (0, 0) differs from the first COG's center (5, 5), the
single recentering call fits (0, 0) — the empty footprint collection's
centroid — not the first COG's center. -/
theorem C1_counterexample :
    (add_cog_mosaic failingBackend initMap ["https://x/a.tif"] "Untitled" "."
        1 true true).fitBounds
      = [⟨[0, 0], [0, 0], some 6⟩] ∧
    failingBackend.cogCenter "https://x/a.tif" = (5, 5) ∧
    FitCall.mk [(0 : Rat), 0] [(0 : Rat), 0] (some 6)
      ≠ FitCall.mk [(5 : Rat), 5] [(5 : Rat), 5] (some 6) :=
  ⟨rfl, rfl, by decide⟩

/-- C1 (amended).  For every backend and non-empty link list,
`add_cog_mosaic` with `show_footprints=True` attaches the mosaic tile
layer and the footprint layer built from exactly the links whose bounds
lookup succeeded (failed items are skipped), and issues one recentering
call at the footprint collection's centroid at zoom 6 — also when every
lookup fails, in which case the centroid of the empty collection is used;
the first COG's own center is consulted only when
`show_footprints=False`. -/
theorem C1_cog_mosaic_footprints (o : CogBackend) (m : MapState)
    (links : List String) (name attribution : String) (opacity : Rat)
    (shown : Bool) (hne : links ≠ []) :
    (add_cog_mosaic o m links name attribution opacity shown true).children
      = m.children ++
        [("tile_layer_" ++ toString m.nextId,
          .tileLayer (o.cogMosaicTile links (replaceChar name ' ' '_'))
            name attribution opacity shown),
         ("geo_json_" ++ toString (m.nextId + 1),
          .geoJson (name ++ "_footprints")
            (.featureCollection (coords_to_geojson (links.filterMap o.cogBounds))))] ∧
    (add_cog_mosaic o m links name attribution opacity shown true).fitBounds
      = m.fitBounds ++
        [⟨[(o.getCenter (coords_to_geojson (links.filterMap o.cogBounds))).2,
           (o.getCenter (coords_to_geojson (links.filterMap o.cogBounds))).1],
          [(o.getCenter (coords_to_geojson (links.filterMap o.cogBounds))).2,
           (o.getCenter (coords_to_geojson (links.filterMap o.cogBounds))).1],
          some 6⟩] ∧
    (add_cog_mosaic o m links name attribution opacity shown false).fitBounds
      = m.fitBounds ++
        [⟨[(o.cogCenter (links.headD "")).2, (o.cogCenter (links.headD "")).1],
          [(o.cogCenter (links.headD "")).2, (o.cogCenter (links.headD "")).1],
          some 6⟩] := by
  refine ⟨?_, ?_, ?_⟩ <;>
    simp [add_cog_mosaic, add_tile_layer, addChild, set_center, fit_bounds, childKey]

/-- C1 (witness): the amended theorem applied to the all-failing backend
on one link. -/
theorem C1_cog_mosaic_footprints_witness :
    (add_cog_mosaic failingBackend initMap ["https://x/a.tif"] "Untitled" "."
        1 true true).fitBounds
      = initMap.fitBounds ++ [⟨[0, 0], [0, 0], some 6⟩] := by
  have h := C1_cog_mosaic_footprints failingBackend initMap ["https://x/a.tif"]
    "Untitled" "." 1 true (List.cons_ne_nil _ _)
  exact h.2.1

/-- C2 (counterexample).  The claim says a 7-character color string
starting with `#` is left unchanged also when supplied via `legend_dict`.
With `legend_dict = {"a": "#ff0000"}` the resolved color is `##ff0000`,
not `#ff0000`: the dict path prepends `#` to every string value. -/
theorem C2_counterexample :
    resolveLegend true []
        { labels := none, colors := none,
          legend_dict := some [("a", PyColor.str "#ff0000")], builtin_legend := none }
      = .ok (["a"], [PyColor.str "##ff0000"]) ∧
    PyColor.str "##ff0000" ≠ PyColor.str "#ff0000" :=
  ⟨rfl, by decide⟩

/-- C2 (amended).  Normalization of legend colors: for a directly supplied
`colors` list, all-RGB-tuple lists map to `#` plus the tuple's hex digits,
all-7-character-`#`-string lists are left unchanged, and all-6-character
lists pass through the normalization block unchanged and receive their `#`
at render time via `check_color`; for colors supplied via `legend_dict` or
resolved from a builtin legend name, tuple values map to `#` plus hex but
every string value gets `#` prepended unconditionally (so a value already
starting with `#` gains a second one — the claim's "7-character strings
unchanged" holds only for directly supplied colors); and a directly
supplied list that normalizes successfully is used as-is by the resolved
legend. -/
theorem C2_legend_color_normalization :
    (∀ ts : List (Nat × Nat × Nat),
       normalizeColors (ts.map fun t => PyColor.rgb t.1 t.2.1 t.2.2)
         = .ok (ts.map fun t => PyColor.str ("#" ++ rgb_to_hex t))) ∧
    (∀ ss : List String, ss ≠ [] →
       (∀ s ∈ ss, pyStartsWith s "#" = true ∧ s.length = 7) →
       normalizeColors (ss.map PyColor.str) = .ok (ss.map PyColor.str)) ∧
    (∀ ss : List String, ss ≠ [] → (∀ s ∈ ss, s.length = 6) →
       normalizeColors (ss.map PyColor.str) = .ok (ss.map PyColor.str) ∧
       (ss.map PyColor.str).map check_color = ss.map (fun s => "#" ++ s)) ∧
    (∀ ts : List (Nat × Nat × Nat),
       legendDictColors (ts.map fun t => PyColor.rgb t.1 t.2.1 t.2.2)
         = ts.map fun t => PyColor.str ("#" ++ rgb_to_hex t)) ∧
    (∀ ss : List String,
       legendDictColors (ss.map PyColor.str)
         = ss.map fun s => PyColor.str ("#" ++ s)) ∧
    (∀ builtins b d, getAssoc builtins b = some d →
       resolveLegend true builtins ⟨none, none, none, some b⟩
         = .ok (d.map Prod.fst, legendDictColors (d.map Prod.snd))) ∧
    (∀ builtins L cs cs2, normalizeColors cs = .ok cs2 → L.length = cs2.length →
       resolveLegend true builtins ⟨some L, some cs, none, none⟩ = .ok (L, cs2)) := by
  refine ⟨?_, ?_, ?_, ?_, ?_, ?_, ?_⟩
  · intro ts
    have hall : (ts.map fun t => PyColor.rgb t.1 t.2.1 t.2.2).all isTuple = true := by
      rw [List.all_eq_true]
      intro x hx
      obtain ⟨t, _, rfl⟩ := List.mem_map.mp hx
      rfl
    simp [normalizeColors, hall, List.map_map]
  · intro ss hne h7
    obtain ⟨s0, rest, rfl⟩ := List.exists_cons_of_ne_nil hne
    have hfalse : ((s0 :: rest).map PyColor.str).all isTuple = false := rfl
    have hall : allE startsHash7 ((s0 :: rest).map PyColor.str) = .ok true := by
      apply allE_ok_true
      intro x hx
      obtain ⟨s, hs, rfl⟩ := List.mem_map.mp hx
      have hp := h7 s hs
      simp [startsHash7, hp.1, hp.2]
    unfold normalizeColors
    rw [hfalse, hall]
    rfl
  · intro ss hne h6
    constructor
    · obtain ⟨s0, rest, rfl⟩ := List.exists_cons_of_ne_nil hne
      have hfalse : ((s0 :: rest).map PyColor.str).all isTuple = false := rfl
      have h0 : startsHash7 (PyColor.str s0) = .ok false := by
        simp [startsHash7, h6 s0 (by simp)]
      have hsh : allE startsHash7 ((s0 :: rest).map PyColor.str) = .ok false := by
        show allE startsHash7 (PyColor.str s0 :: rest.map PyColor.str) = .ok false
        unfold allE
        rw [h0]
      have hl6 : allE len6 ((s0 :: rest).map PyColor.str) = .ok true := by
        apply allE_ok_true
        intro x hx
        obtain ⟨s, hs, rfl⟩ := List.mem_map.mp hx
        simp [len6, h6 s hs]
      unfold normalizeColors
      rw [hfalse, hsh, hl6]
      rfl
    · rw [List.map_map]
      apply List.map_congr_left
      intro s hs
      simp [check_color, h6 s hs]
  · intro ts
    have hall : (ts.map fun t => PyColor.rgb t.1 t.2.1 t.2.2).all isTuple = true := by
      rw [List.all_eq_true]
      intro x hx
      obtain ⟨t, _, rfl⟩ := List.mem_map.mp hx
      rfl
    simp [legendDictColors, hall, List.map_map]
  · intro ss
    cases ss with
    | nil => rfl
    | cons s0 rest =>
      have hfalse : ((s0 :: rest).map PyColor.str).all isTuple = false := rfl
      have hstr : ((s0 :: rest).map PyColor.str).all isStr = true := by
        rw [List.all_eq_true]
        intro x hx
        obtain ⟨s, _, rfl⟩ := List.mem_map.mp hx
        rfl
      unfold legendDictColors
      rw [hfalse, hstr]
      simp [List.map_map]
  · intro builtins b d h
    simp [resolveLegend, h, defaultLegendLabels, defaultLegendColors, processLegendDict]
  · intro builtins L cs cs2 hnc hlen
    simp [resolveLegend, hnc, hlen]

/-- C2 (witness): the amended normalization rules evaluated on concrete
colors through each path. -/
theorem C2_legend_color_normalization_witness :
    normalizeColors [PyColor.rgb 255 0 0] = .ok [PyColor.str "#ff0000"] ∧
    normalizeColors [PyColor.str "#00ff00"] = .ok [PyColor.str "#00ff00"] ∧
    normalizeColors [PyColor.str "00ff00"] = .ok [PyColor.str "00ff00"] ∧
    legendDictColors [PyColor.str "123456"] = [PyColor.str "#123456"] ∧
    resolveLegend true [("nlcd", [("water", PyColor.str "466b9f")])]
        ⟨none, none, none, some "nlcd"⟩
      = .ok (["water"], [PyColor.str "#466b9f"]) := by
  have h := C2_legend_color_normalization
  exact ⟨h.1 [(255, 0, 0)],
    h.2.1 ["#00ff00"] (List.cons_ne_nil _ _) (by decide),
    (h.2.2.1 ["00ff00"] (List.cons_ne_nil _ _) (by decide)).1,
    h.2.2.2.2.1 ["123456"],
    h.2.2.2.2.2.1 [("nlcd", [("water", PyColor.str "466b9f")])] "nlcd"
      [("water", PyColor.str "466b9f")] rfl⟩

/-- C3 (counterexample).  The claim says the per-feature style callback
wins when both `style_callback` and `fill_colors` are supplied.  With a
callback and `fill_colors=["red", "green"]` both present, the resulting
style function is the `random_color` closure over the fill palette, not
the callback. -/
theorem C3_counterexample :
    buildStyleFunctions
        { style := none, style_callback := some (some 7),
          hover_style := some [], fill_colors := some ["red", "green"] }
      = .ok (some (.randomFill defaultStyleDict ["red", "green"]), none) ∧
    (StyleSource.randomFill defaultStyleDict ["red", "green"])
      ≠ StyleSource.callback 7 :=
  ⟨rfl, by decide⟩

/-- C3 (amended).  In `add_geojson`'s style pipeline a supplied callback
overrides the style and hover dicts as the style function, but a supplied
`fill_colors` list overrides even the callback: the style function becomes
the `random_color` closure over the current style dict and the supplied
palette, and each feature's evaluated style carries the per-feature pick
from that palette as its fill color. -/
theorem C3_style_function_precedence :
    (∀ a c p, a.style_callback = some (some c) → a.fill_colors = none →
       buildStyleFunctions a = .ok p → p.1 = some (.callback c)) ∧
    (∀ a cols p, a.fill_colors = some cols →
       buildStyleFunctions a = .ok p →
       p.1 = some (.randomFill (a.style.getD defaultStyleDict) cols)) ∧
    (∀ choose cbEval base palette,
       getAssoc (applyStyleSource choose cbEval (.randomFill base palette))
           "fillColor"
         = some (.s (choose palette))) := by
  refine ⟨?_, ?_, ?_⟩
  · intro a c p h1 h2 heq
    obtain ⟨st, scb, hv, fc⟩ := a
    simp at h1 h2
    subst h1 h2
    unfold buildStyleFunctions at heq
    dsimp only at heq
    revert heq
    split
    · intro heq
      simp at heq
    · intro heq
      simp at heq
      rw [← heq]
  · intro a cols p h1 heq
    obtain ⟨st, scb, hv, fc⟩ := a
    simp at h1
    subst h1
    unfold buildStyleFunctions at heq
    dsimp only at heq
    revert heq
    split
    · intro heq
      simp at heq
    · intro heq
      simp at heq
      rw [← heq]
      cases st <;> rfl
  · intro choose cbEval base palette
    show getAssoc (setAssoc base "fillColor" (.s (choose palette))) "fillColor" = _
    exact getAssoc_setAssoc _ _ _

/-- C3 (witness): the amended precedence evaluated on concrete arguments —
a lone callback wins; with `fill_colors` present the random-fill closure
wins; the evaluated random fill color is the chooser's pick. -/
theorem C3_style_function_precedence_witness :
    (some (StyleSource.callback 7), some (StyleSource.fromDict [("weight", SVal.n 2)])).1
      = some (StyleSource.callback 7) ∧
    (some (StyleSource.randomFill defaultStyleDict ["red"]), (none : Option StyleSource)).1
      = some (StyleSource.randomFill (Option.getD none defaultStyleDict) ["red"]) ∧
    getAssoc (applyStyleSource (fun l => l.headD "") (fun _ => [])
        (.randomFill [] ["red"])) "fillColor"
      = some (.s "red") := by
  have h := C3_style_function_precedence
  exact ⟨h.1 ⟨none, some (some 7), some [("weight", SVal.n 2)], none⟩ 7
      (some (.callback 7), some (.fromDict [("weight", SVal.n 2)])) rfl rfl rfl,
    h.2.1 ⟨none, some (some 7), some [], some ["red"]⟩ ["red"]
      (some (.randomFill defaultStyleDict ["red"]), none) rfl rfl,
    h.2.2 (fun l => l.headD "") (fun _ => []) [] ["red"]⟩

/-- C4.  With `zoom_to_layer=True` and reprojected bound extrema
(west, south, east, north), both `add_gdf` and `add_gdf_from_postgis`
issue a fit-bounds call with first pair `[south, east]` and second pair
`[north, west]` — east and west exchanged relative to the
`[[south, west], [north, east]]` order that `zoom_to_bounds` produces for
the same box. -/
theorem C4_gdf_fit_bounds_swap (m : MapState) (g n : String)
    (west south east north : Rat) :
    (add_gdf m g n true west south east north).fitBounds
        = m.fitBounds ++ [⟨[south, east], [north, west], none⟩] ∧
    (add_gdf_from_postgis m g n true west south east north).fitBounds
        = m.fitBounds ++ [⟨[south, east], [north, west], none⟩] ∧
    (zoom_to_bounds m [west, south, east, north]).fitBounds
        = m.fitBounds ++ [⟨[south, west], [north, east], none⟩] :=
  ⟨rfl, rfl, rfl⟩

/-- C5.  `zoom_to_bounds([minx, miny, maxx, maxy])` issues exactly one
fit-bounds call, with first pair `[miny, minx]` and second pair
`[maxy, maxx]`, and changes nothing else in the map state. -/
theorem C5_zoom_to_bounds_order (m : MapState) (minx miny maxx maxy : Rat) :
    zoom_to_bounds m [minx, miny, maxx, maxy]
      = { m with fitBounds := m.fitBounds ++ [⟨[miny, minx], [maxy, maxx], none⟩] } :=
  rfl

/-- C6.  `add_geojson` on a local path that names no existing file fails
with the file-not-found error (re-raised wrapped in a generic exception by
the surrounding `except` clause); on a non-string, non-mapping input it
fails with the type error (likewise wrapped); and on an HTTP URL it issues
exactly one fetch and attaches the fetched body as the GeoJSON layer's
data. -/
theorem C6_add_geojson_input_handling :
    (∀ env m s name a, pyStartsWith s "http" = false → env.fileData s = none →
       add_geojson env m (.str s) name a
         = .error (.wrapped (.fileNotFound "The provided GeoJSON file could not be found."))) ∧
    (∀ env m name a, add_geojson env m .other name a
         = .error (.wrapped (.typeError "The input geojson must be a type of str or dict."))) ∧
    (∀ env m s name a p, pyStartsWith s "http" = true →
       buildStyleFunctions a = .ok p →
       add_geojson env m (.str s) name a
         = .ok (addChild m (.geoJson name (.json (env.httpGet s))), 1)) := by
  refine ⟨?_, ?_, ?_⟩
  · intro env m s name a h hf
    simp [add_geojson, loadGeojsonInput, h, hf]
  · intro env m name a
    simp [add_geojson, loadGeojsonInput]
  · intro env m s name a p h hb
    simp [add_geojson, loadGeojsonInput, h, hb]

/-- C6 (witness): the three input shapes on a concrete environment. -/
theorem C6_add_geojson_input_handling_witness :
    (add_geojson emptyEnv initMap (.str "missing.geojson") "Untitled"
        ⟨none, none, none, none⟩
      = .error (.wrapped (.fileNotFound "The provided GeoJSON file could not be found."))) ∧
    (add_geojson emptyEnv initMap .other "Untitled" ⟨none, none, none, none⟩
      = .error (.wrapped (.typeError "The input geojson must be a type of str or dict."))) ∧
    (add_geojson emptyEnv initMap (.str "https://x/y.geojson") "Untitled"
        ⟨none, none, some [("weight", SVal.n 2)], none⟩
      = .ok (addChild initMap (.geoJson "Untitled" (.json "{}")), 1)) :=
  ⟨C6_add_geojson_input_handling.1 emptyEnv initMap "missing.geojson" "Untitled"
      ⟨none, none, none, none⟩ (by decide) rfl,
   C6_add_geojson_input_handling.2.1 emptyEnv initMap "Untitled" ⟨none, none, none, none⟩,
   C6_add_geojson_input_handling.2.2 emptyEnv initMap "https://x/y.geojson" "Untitled"
     ⟨none, none, some [("weight", SVal.n 2)], none⟩
     (some (.fromDict defaultStyleDict), some (.fromDict [("weight", SVal.n 2)]))
     (by decide) rfl⟩

/-- C7.  When the supplied label and color lists have different lengths,
`add_legend` fails with a validation error; and whenever the legend
resolves successfully, the resolved label list and color list have equal
length. -/
theorem C7_legend_length_invariant :
    (∀ builtins L C, L.length ≠ C.length →
       ∃ e, resolveLegend true builtins ⟨some L, some C, none, none⟩ = .error e ∧
            e.isValidation = true) ∧
    (∀ te builtins a L C, resolveLegend te builtins a = .ok (L, C) →
       L.length = C.length) := by
  constructor
  · intro builtins L C hne
    match hnc : normalizeColors C with
    | .error e =>
      refine ⟨e, ?_, normalizeColors_error_validation C e hnc⟩
      simp [resolveLegend, hnc]
    | .ok cs2 =>
      have hlen : L.length ≠ cs2.length := by
        rw [normalizeColors_length C cs2 hnc]
        exact hne
      refine ⟨.valueError "The legend keys and values must be the same length.", ?_, rfl⟩
      simp [resolveLegend, hnc, hlen]
  · exact resolveLegend_ok_len

/-- C7 (witness): a mismatched pair fails with a validation error, and a
successful default resolution has equal lengths. -/
theorem C7_legend_length_invariant_witness :
    (∃ e, resolveLegend true [] ⟨some ["a"], some [], none, none⟩ = .error e ∧
          e.isValidation = true) ∧
    defaultLegendLabels.length = defaultLegendColors.length :=
  ⟨C7_legend_length_invariant.1 [] ["a"] [] (by decide),
   C7_legend_length_invariant.2 true [] ⟨none, none, none, none⟩
     defaultLegendLabels defaultLegendColors rfl⟩

/-- C8.  Starting from a map with no layer control and the layers-control
option enabled, any non-empty sequence of `add_layer_control` calls,
display-hook invocations and `to_html` control steps leaves exactly one
layer-control child on the map: the scan for an existing `layer_control`
key makes the addition idempotent. -/
theorem C8_layer_control_once (m : MapState) (ops : List LCOp)
    (h0 : layerControlCount m = 0) (hc : m.layersControl = true)
    (hne : ops ≠ []) :
    layerControlCount (applyLCOps m ops) = 1 := by
  cases ops with
  | nil => exact absurd rfl hne
  | cons op ops =>
    have h1 : applyLCOp m op = add_layer_control m := by
      cases op with
      | direct => rfl
      | hook =>
        show repr_hook m = _
        unfold repr_hook
        rw [hc]
        simp
      | exportStep =>
        show (if m.layersControl then _ else _) = _
        rw [hc]
        simp
    show layerControlCount (applyLCOps (applyLCOp m op) ops) = 1
    rw [h1]
    have h2 : layerControlCount (add_layer_control m) = 1 := add_layer_control_adds m h0
    rw [applyLCOps_stable ops _ (by rw [h2] ; exact Nat.zero_lt_one)]
    exact h2

/-- C8 (witness): a direct call, a display-hook call and an export step on
a fresh map leave exactly one layer control. -/
theorem C8_layer_control_once_witness :
    layerControlCount (applyLCOps initMap [.direct, .hook, .exportStep]) = 1 :=
  C8_layer_control_once initMap [.direct, .hook, .exportStep] rfl rfl (by decide)

/-- C9.  `to_html` with an output path not ending in `.html` fails with
the validation error; with a valid path it saves the rendered document at
that path and ensures the parent directory exists; with no path it returns
the rendered document's text, leaves no file under the temporary name, and
touches no other file. -/
theorem C9_to_html_contract :
    (∀ render dirOf m fs p tmp, pyEndsWith p ".html" = false →
       to_html render dirOf m fs (some p) tmp
         = .error (.valueError "The output file extension must be html.")) ∧
    (∀ render dirOf m fs p tmp out ms fsOut, pyEndsWith p ".html" = true →
       to_html render dirOf m fs (some p) tmp = .ok (out, ms, fsOut) →
       out = none ∧ getAssoc fsOut.files p = some (render ms) ∧
       dirOf p ∈ fsOut.dirs) ∧
    (∀ render dirOf m fs tmp out ms fsOut,
       to_html render dirOf m fs none tmp = .ok (out, ms, fsOut) →
       out = some (render ms) ∧ getAssoc fsOut.files (tmp ++ ".html") = none ∧
       ∀ q, q ≠ tmp ++ ".html" → getAssoc fsOut.files q = getAssoc fs.files q) := by
  refine ⟨?_, ?_, ?_⟩
  · intro render dirOf m fs p tmp h
    simp [to_html, h]
  · intro render dirOf m fs p tmp out ms fsOut h heq
    simp [to_html, h] at heq
    obtain ⟨h1, h2, h3⟩ := heq
    subst h1 h2
    rw [← h3]
    refine ⟨rfl, ?_, ?_⟩
    · show getAssoc (writeFile _ p _).files p = _
      unfold writeFile
      exact getAssoc_setAssoc _ _ _
    · show dirOf p ∈ (writeFile (if (dirOf p) ∈ fs.dirs then fs
          else { fs with dirs := fs.dirs ++ [dirOf p] }) p _).dirs
      unfold writeFile
      split
      · assumption
      · simp
  · intro render dirOf m fs tmp out ms fsOut heq
    simp [to_html] at heq
    obtain ⟨h1, h2, h3⟩ := heq
    subst h2
    rw [← h3, ← h1]
    refine ⟨?_, ?_, ?_⟩
    · show some (readWhole (writeFile fs _ _) _) = _
      unfold readWhole writeFile
      rw [getAssoc_setAssoc]
      rfl
    · show getAssoc (removeFile _ _).files _ = none
      unfold removeFile
      exact getAssoc_filter_out _ _
    · intro q hq
      show getAssoc (removeFile (writeFile fs _ _) _).files q = _
      unfold removeFile writeFile
      rw [getAssoc_filter_ne _ _ _ hq, getAssoc_setAssoc_ne _ _ _ _ hq]

/-- C9 (witness): the three `to_html` modes on a concrete map and
filesystem. -/
theorem C9_to_html_contract_witness :
    (to_html (fun _ => "page") (fun _ => "d") initMap ⟨[], []⟩ (some "map.txt") "tmp"
      = .error (.valueError "The output file extension must be html.")) ∧
    (getAssoc ({ files := [("map.html", "page")], dirs := ["d"] } : FileSys).files
        "map.html" = some "page") ∧
    getAssoc (({ files := [], dirs := [] } : FileSys)).files ("tmp" ++ ".html") = none := by
  have h1 := C9_to_html_contract.1 (fun _ => "page") (fun _ => "d") initMap
    ⟨[], []⟩ "map.txt" "tmp" (by decide)
  have h2 := C9_to_html_contract.2.1 (fun _ => "page") (fun _ => "d") initMap
    ⟨[], []⟩ "map.html" "tmp" none (add_layer_control initMap)
    { files := [("map.html", "page")], dirs := ["d"] } (by decide) rfl
  have h3 := C9_to_html_contract.2.2 (fun _ => "page") (fun _ => "d") initMap
    ⟨[], []⟩ "tmp" (some "page") (add_layer_control initMap)
    { files := [], dirs := [] } rfl
  exact ⟨h1, h2.2.1, h3.2.1⟩

/-- C10.  Every stub of the unsupported-operation set, on any map state and
argument tuple, fails with the not-supported error whose message names the
ipyleaflet backend, and returns the map state unchanged. -/
theorem C10_stubs_not_supported :
    (∀ m cmap vmin vmax, Map.add_colormap m cmap vmin vmax = (m, some stubErr)) ∧
    (∀ m event am, Map.add_marker_cluster m event am = (m, some stubErr)) ∧
    (∀ m z pos, Map.add_minimap m z pos = (m, some stubErr)) ∧
    (∀ m f pu ln, Map.add_point_layer m f pu ln = (m, some stubErr)) ∧
    (∀ m i b ln, Map.add_raster m i b ln = (m, some stubErr)) ∧
    (∀ m lb ti pos, Map.add_time_slider m lb ti pos = (m, some stubErr)) ∧
    (∀ m u a, Map.add_vector_tile_layer m u a = (m, some stubErr)) ∧
    (∀ m c x y lb ln, Map.add_xy_data m c x y lb ln = (m, some stubErr)) ∧
    (∀ m, Map.basemap_demo m = (m, some stubErr)) ∧
    (∀ m n, Map.find_layer m n = (m, some stubErr)) ∧
    (∀ m n, Map.find_layer_index m n = (m, some stubErr)) ∧
    (∀ m, Map.get_layer_names m = (m, some stubErr)) ∧
    (∀ m, Map.get_scale m = (m, some stubErr)) ∧
    (∀ m u b n, Map.image_overlay m u b n = (m, some stubErr)) ∧
    (∀ m n v, Map.layer_opacity m n v = (m, some stubErr)) ∧
    (∀ m l r, Map.split_map m l r = (m, some stubErr)) ∧
    (∀ m o mo, Map.to_image m o mo = (m, some stubErr)) ∧
    (∀ m, Map.toolbar_reset m = (m, some stubErr)) ∧
    (∀ m u b n, Map.video_overlay m u b n = (m, some stubErr)) ∧
    (∀ r c h ly lb lp, linked_maps r c h ly lb lp = .error stubErr) ∧
    (∀ l r ll rl lp, split_map l r ll rl lp = .error stubErr) ∧
    strContainsSub stubMsg "ipyleaflet" = true := by
  refine ⟨fun _ _ _ _ => rfl, fun _ _ _ => rfl, fun _ _ _ => rfl, fun _ _ _ _ => rfl,
    fun _ _ _ _ => rfl, fun _ _ _ _ => rfl, fun _ _ _ => rfl, fun _ _ _ _ _ _ => rfl,
    fun _ => rfl, fun _ _ => rfl, fun _ _ => rfl, fun _ => rfl, fun _ => rfl,
    fun _ _ _ _ => rfl, fun _ _ _ => rfl, fun _ _ _ => rfl, fun _ _ _ => rfl,
    fun _ => rfl, fun _ _ _ _ => rfl, fun _ _ _ _ _ _ => rfl, fun _ _ _ _ _ => rfl,
    by decide⟩

end Leafmap
